import Mathlib

/-!
Shallow embedding of the ttrpc-rust server core (src/server.rs) and theorems
checking the specification's claims about it.  Pure parsing and address
formation are embedded directly; the thread-based parts (worker loop, listener
accept path, reaper, shutdown) are embedded as step functions on explicit
state, with each racy load of an atomic quit flag supplied as an observation.
Machine integers are Nat with explicit reduction modulo 2^32 where the code
casts to u32.  Protobuf encode/decode is the black-box codec of the spec and
is passed as a function parameter.
-/

namespace Ttrpc

/-- Modelled from the spec: the closed set of status codes (crate::ttrpc::Code,
not under src/; spec section 3). -/
inductive Code where
  | OK
  | UNKNOWN
  | INVALID_ARGUMENT
  | NOT_FOUND
  | INTERNAL
  deriving DecidableEq

/-- Modelled from the spec: a Status is a code plus a message (spec section 3). -/
structure Status where
  code : Code
  message : String
  deriving DecidableEq

/-- Modelled from the spec: get_status builds a Status from a code and a
message (crate::error::get_status, not under src/). -/
def get_status (c : Code) (msg : String) : Status :=
  { code := c, message := msg }

/-- Modelled from the spec: the error enum of crate::error (not under src/;
spec section 7). -/
inductive Error where
  | Socket (detail : String)
  | Protocol (detail : String)
  | RpcStatus (s : Status)
  | Others (detail : String)
  deriving DecidableEq

/-- Modelled from the spec: the wire message header (crate::channel, not under
src/; spec sections 3 and 6).  length and stream_id are u32, type and flags u8. -/
structure MessageHeader where
  length : Nat
  stream_id : Nat
  type_ : Nat
  flags : Nat
  deriving DecidableEq

/-- Modelled from the spec: MESSAGE_TYPE_REQUEST = 1 (crate::channel). -/
def MESSAGE_TYPE_REQUEST : Nat := 1

/-- Modelled from the spec: MESSAGE_TYPE_RESPONSE = 2 (crate::channel). -/
def MESSAGE_TYPE_RESPONSE : Nat := 2

/-- Modelled from the spec: the Request message carried by a REQUEST frame
(spec section 3); timeout_nano and metadata are ignored by this core and
omitted. -/
structure Request where
  service : String
  method : String
  payload : List Nat
  deriving DecidableEq

/-- Modelled from the spec: the Response message carried by a RESPONSE frame
(spec section 3). -/
structure Response where
  status : Status
  payload : List Nat
  deriving DecidableEq

/-- The worker-pool sizing defaults (server.rs lines 39-41). -/
def DEFAULT_WAIT_THREAD_COUNT_DEFAULT : Nat := 3

/-- See DEFAULT_WAIT_THREAD_COUNT_DEFAULT (server.rs line 40). -/
def DEFAULT_WAIT_THREAD_COUNT_MIN : Nat := 1

/-- See DEFAULT_WAIT_THREAD_COUNT_DEFAULT (server.rs line 41). -/
def DEFAULT_WAIT_THREAD_COUNT_MAX : Nat := 5

/-- UTF-8 encoding of one scalar value, as Rust str::as_bytes exposes it. -/
def utf8EncodeChar (c : Char) : List Nat :=
  let n := c.toNat
  if n < 128 then [n]
  else if n < 2048 then
    [192 ||| (n >>> 6), 128 ||| (n &&& 63)]
  else if n < 65536 then
    [224 ||| (n >>> 12), 128 ||| ((n >>> 6) &&& 63), 128 ||| (n &&& 63)]
  else
    [240 ||| (n >>> 18), 128 ||| ((n >>> 12) &&& 63), 128 ||| ((n >>> 6) &&& 63),
     128 ||| (n &&& 63)]

/-- The UTF-8 bytes of a char sequence (Rust str::as_bytes). -/
def utf8Bytes (cs : List Char) : List Nat :=
  (cs.map utf8EncodeChar).flatten

/-- Rust str::split on a non-empty separator, left to right and
non-overlapping; implemented on char lists with fuel for structural
termination (the fuel is always sufficient at length + 1). -/
def splitAux (sep : List Char) : Nat → List Char → List Char → List (List Char)
  | 0, cs, acc => [acc.reverse ++ cs]
  | _ + 1, [], acc => [acc.reverse]
  | fuel + 1, c :: cs, acc =>
    if sep.isPrefixOf (c :: cs) then
      acc.reverse :: splitAux sep fuel ((c :: cs).drop sep.length) []
    else
      splitAux sep fuel cs (c :: acc)

/-- Rust str::split on char lists. -/
def splitOnChars (sep cs : List Char) : List (List Char) :=
  splitAux sep (cs.length + 1) cs []

/-- Rust str::trim on a char list (the claims only exercise ASCII hosts, for
which Char.isWhitespace agrees with Rust's White_Space trimming). -/
def trimChars (cs : List Char) : List Char :=
  ((cs.dropWhile Char.isWhitespace).reverse.dropWhile Char.isWhitespace).reverse

/-- Rust u32::from_str (used at server.rs line 332): an optional leading plus
sign, then one or more ASCII digits, with the value below 2^32. -/
def parseU32 (s : List Char) : Option Nat :=
  let cs := match s with
    | '+' :: rest => rest
    | cs => cs
  if cs.isEmpty then none
  else if cs.all Char.isDigit then
    let v := cs.foldl (fun a c => a * 10 + (c.toNat - 48)) 0
    if v < 4294967296 then some v else none
  else none

/-- VMADDR_CID_ANY, the u32 -1 wildcard CID (server.rs line 330). -/
def VMADDR_CID_ANY : Nat := 4294967295

/-- Kernel-level socket address formed by Server::bind.  For the unix scheme
the list holds the sun_path bytes handed to the kernel. -/
inductive SockAddr where
  | Unix (path : List Nat)
  | Vsock (cid : Nat) (port : Nat)
  deriving DecidableEq

/-- nix's UnixAddr::new_abstract, modelled from its documented contract (an
external library, used at server.rs line 318): it prepends the leading NUL of
the abstract namespace to the caller's bytes, failing when the result does not
fit sun_path (108 bytes). -/
def new_abstract (path : List Nat) : Option (List Nat) :=
  if path.length + 1 ≤ 108 then some (0 :: path) else none

/-- Outcome of Server::bind.  panicked models the expect on the vsock port
parse (server.rs line 332); socket creation and the kernel bind call are
abstracted as succeeding, since the claims are about parsing and address
formation. -/
inductive BindStep where
  | err (e : Error)
  | panicked (msg : String)
  | bound (addr : SockAddr)
  deriving DecidableEq

/-- Whether a bind outcome is Err(Error::Others(..)). -/
def BindStep.isErrOthers : BindStep → Bool
  | .err (.Others _) => true
  | _ => false

/-- Scheme dispatch and address formation of Server::bind on the already split
host (server.rs lines 298-343). -/
def bindParsed (hostv : List (List Char)) (host : String) : BindStep :=
  match hostv with
  | [scheme0, addr] =>
    let scheme := scheme0.map Char.toLower
    if scheme = "unix".toList then
      let sockaddr_h := utf8Bytes addr ++ [0]
      match new_abstract sockaddr_h with
      | some kernelBytes => .bound (.Unix kernelBytes)
      | none => .err (.Others "")
    else if scheme = "vsock".toList then
      match splitOnChars [':'] addr with
      | [_cid, portStr] =>
        match parseU32 portStr with
        | some port => .bound (.Vsock VMADDR_CID_ANY port)
        | none => .panicked "the vsock port is not an number"
      | _ => .err (.Others ("Host " ++ host ++ " is not right for vsock"))
    else
      .err (.Others ("Scheme " ++ scheme.asString ++ " is not supported"))
  | _ => .err (.Others ("Host " ++ host ++ " is not right"))

/-- Server::bind (server.rs lines 290-351): refuse a second bind, split the
trimmed host on "://", dispatch on the scheme; on success push the bound
address onto the listener list. -/
def bind (listeners : List SockAddr) (host : String) : BindStep × List SockAddr :=
  if listeners.isEmpty then
    match bindParsed (splitOnChars ("://".toList) (trimChars host.toList)) host with
    | .bound a => (.bound a, listeners ++ [a])
    | r => (r, listeners)
  else
    (.err (.Others "ttrpc-rust just support 1 host now"), listeners)

/-- Outcome of Server::start.  started fd means the listener fd was set
non-blocking and the listener thread spawned, with Ok(()) returned
immediately. -/
inductive StartOut where
  | err (e : Error)
  | started (listenerFd : Nat)
  deriving DecidableEq

/-- Whether a start outcome is Err(Error::Others(..)). -/
def StartOut.isErrOthers : StartOut → Bool
  | .err (.Others _) => true
  | _ => false

/-- Server::start (server.rs lines 393-428): sizing validation, bound-listener
check, set the first listener non-blocking (the fcntl outcome is passed as a
parameter) and spawn the listener thread. -/
def start (thread_count_default thread_count_min thread_count_max : Nat)
    (listeners : List Nat) (fcntlOk : Bool) : StartOut :=
  if thread_count_max ≤ thread_count_default then
    .err (.Others "thread_count_default should smaller than thread_count_max")
  else if thread_count_default ≤ thread_count_min then
    .err (.Others "thread_count_default should biger than thread_count_min")
  else
    match listeners with
    | [] => .err (.Others "ttrpc-rust not bind")
    | fd :: _ =>
      if fcntlOk then .started fd
      else .err (.Others "failed to set listener fd as non block")

/-- response_to_channel (server.rs lines 652-671): encode the Response through
the black-box protobuf codec, build the MessageHeader — length is buf.len()
cast to u32, the type is RESPONSE and the flags are 0 — and hand
(header, payload) to the response-writer channel. -/
def response_to_channel (encode : Response → List Nat) (stream_id : Nat)
    (res : Response) : MessageHeader × List Nat :=
  let buf := encode res
  ({ length := buf.length % 4294967296, stream_id := stream_id,
     type_ := MESSAGE_TYPE_RESPONSE, flags := 0 }, buf)

/-- Result of read_message on the connection socket (crate::channel, not under
src/): a frame or an error (spec section 4.1). -/
inductive ReadResult where
  | ok (mh : MessageHeader) (buf : List Nat)
  | err (e : Error)
  deriving DecidableEq

/-- One worker-loop iteration's observations of its concurrent environment:
the three loads of the connection quit flag (loop guard at server.rs line 97,
under the read lock at line 107, after the read at line 117) and the frame
read_message returned. -/
structure WorkerObs where
  q0 : Bool
  q1 : Bool
  q2 : Bool
  read : ReadResult
  deriving DecidableEq

/-- Events a worker-loop iteration performs, in program order (server.rs lines
97-228).  incr and decr record the new wtc value produced by the atomic
fetch_add/fetch_sub. -/
inductive WEvent where
  | incr (newVal : Nat)
  | decr (newVal : Nat)
  | readFrame
  | signal
  | setQuitFlag
  | emit (mh : MessageHeader) (buf : List Nat)
  | preCall
  | handlerCall (hid : Nat)
  deriving DecidableEq

/-- Whether a worker-loop iteration ended in continue or break. -/
inductive StepExit where
  | cont
  | brk
  deriving DecidableEq

/-- Result of one worker-loop iteration (or of a run of them): the events in
order, the final wtc, and how the loop left the iteration. -/
structure WStep where
  events : List WEvent
  wtc : Nat
  exit : StepExit
  deriving DecidableEq

/-- Static configuration of a worker (the captures of
start_method_handler_thread, server.rs lines 84-95): the pool bounds, the
router with handlers named by ids, the optional pre-handler, the protobuf
codec, the outcome of each method handler (none means Ok), and whether sends
on the response channel succeed. -/
structure WCfg where
  min : Nat
  max : Nat
  methods : List (String × Nat)
  ph : Option Unit
  decode : List Nat → Except String Request
  encode : Response → List Nat
  handlerRes : Nat → Request → Option Error
  sendOk : Bool

/-- The frame-handling tail of a worker iteration (server.rs lines 132-227):
socket errors set quit, signal and break; other read errors are skipped;
non-REQUEST frames are ignored; an undecodable request is answered with
INVALID_ARGUMENT and the decoder's message; an unrouted request is answered
with INVALID_ARGUMENT "<path> does not exist" (a failed send sets quit,
signals and breaks); on a routing hit the pre-handler is invoked when one is
configured and then the method handler, whose failure sets quit, signals and
breaks. -/
def handleFrame (cfg : WCfg) (rd : ReadResult) : List WEvent × StepExit :=
  match rd with
  | .err (.Socket _) => ([.setQuitFlag, .signal], .brk)
  | .err _ => ([], .cont)
  | .ok mh buf =>
    if mh.type_ ≠ MESSAGE_TYPE_REQUEST then ([], .cont)
    else
      match cfg.decode buf with
      | .error msg =>
        let fr := response_to_channel cfg.encode mh.stream_id
          { status := get_status .INVALID_ARGUMENT msg, payload := [] }
        if cfg.sendOk then ([.emit fr.1 fr.2], .cont)
        else ([.setQuitFlag, .signal], .brk)
      | .ok req =>
        let path := "/" ++ req.service ++ "/" ++ req.method
        match cfg.methods.lookup path with
        | none =>
          let fr := response_to_channel cfg.encode mh.stream_id
            { status := get_status .INVALID_ARGUMENT (path ++ " does not exist"),
              payload := [] }
          if cfg.sendOk then ([.emit fr.1 fr.2], .cont)
          else ([.setQuitFlag, .signal], .brk)
        | some hid =>
          let preEvs := if cfg.ph.isSome then [WEvent.preCall] else []
          match cfg.handlerRes hid req with
          | none => (preEvs ++ [.handlerCall hid], .cont)
          | some _ => (preEvs ++ [.handlerCall hid, .setQuitFlag, .signal], .brk)

/-- One iteration of the worker loop (server.rs lines 97-228): increment wtc
and shrink when over max (without reading); check quit under the lock; read a
frame; check quit again (breaking without a decrement); decrement wtc and
signal below min; then handle the frame per handleFrame. -/
def workerStep (cfg : WCfg) (obs : WorkerObs) (wtc : Nat) : WStep :=
  if obs.q0 then { events := [], wtc := wtc, exit := .brk }
  else
    let c1 := wtc + 1
    if cfg.max < c1 then
      { events := [.incr c1, .decr wtc], wtc := wtc, exit := .brk }
    else if obs.q1 then
      { events := [.incr c1, .signal], wtc := c1, exit := .brk }
    else if obs.q2 then
      { events := [.incr c1, .readFrame, .signal], wtc := c1, exit := .brk }
    else
      let c2 := c1 - 1
      let pre := [WEvent.incr c1, .readFrame, .decr c2] ++
        (if c2 < cfg.min then [WEvent.signal] else [])
      let h := handleFrame cfg obs.read
      { events := pre ++ h.1, wtc := c2, exit := h.2 }

/-- Run the worker loop (the while at server.rs line 97) over a list of
per-iteration observations, accumulating events; the final exit is brk when
the loop broke and cont when it is still looping after the supplied
observations. -/
def workerRun (cfg : WCfg) : List WorkerObs → Nat → WStep
  | [], wtc => { events := [], wtc := wtc, exit := .cont }
  | o :: rest, wtc =>
    let s := workerStep cfg o wtc
    match s.exit with
    | .brk => s
    | .cont =>
      let r := workerRun cfg rest s.wtc
      { events := s.events ++ r.events, wtc := r.wtc, exit := r.exit }

/-- Frames handed to the response-writer channel during a run. -/
def emittedFrames (evs : List WEvent) : List (MessageHeader × List Nat) :=
  evs.filterMap fun e =>
    match e with
    | .emit mh buf => some (mh, buf)
    | _ => none

/-- Number of method-handler invocations in a run. -/
def handlerCalls (evs : List WEvent) : Nat :=
  evs.countP fun e =>
    match e with
    | .handlerCall _ => true
    | _ => false

/-- Outcome of start_method_handler_threads: how many worker threads were
spawned and, on normal exit, the remaining pre-handler slot (the take leaves
None behind); panicked records a panic in the spawning loop. -/
inductive SpawnOut where
  | ok (spawned : Nat) (ph : Option Unit)
  | panicked (spawned : Nat)
  deriving DecidableEq

/-- start_method_handler_threads (server.rs lines 232-257).  Each iteration
checks quit, takes ts.pre_handler (leaving None behind) and unwraps it —
panicking when it is None, which happens on the first iteration when no
pre-handler was configured and on every iteration after the first otherwise.
The quit flag is sampled once per iteration and modelled as a constant. -/
def start_method_handler_threads (num : Nat) (quit : Bool) (ph : Option Unit) :
    SpawnOut :=
  match num with
  | 0 => .ok 0 ph
  | n + 1 =>
    if quit then .ok 0 ph
    else
      match ph with
      | none => .panicked 0
      | some _ =>
        match start_method_handler_threads n quit none with
        | .ok k ph2 => .ok (k + 1) ph2
        | .panicked k => .panicked (k + 1)

/-- check_method_handler_threads (server.rs lines 259-264): on a control-loop
wake, load wtc and, when it is below min, invoke the spawner for
default − wtc workers. -/
def check_method_handler_threads (thread_count_default thread_count_min : Nat)
    (quit : Bool) (ph : Option Unit) (wtc : Nat) : SpawnOut :=
  if wtc < thread_count_min then
    start_method_handler_threads (thread_count_default - wtc) quit ph
  else
    .ok 0 ph

/-- Steps of the listener loop's accept path, in program order (server.rs
lines 489-569). -/
inductive LEvent where
  | accepted (fd : Nat)
  | spawnedEngine (fd : Nat)
  | insertedConnection (fd : Nat)
  deriving DecidableEq

/-- Outcome of the accept path: the events performed before a panic, or the
full event list together with the pre-handler slot left behind by the take. -/
inductive AcceptOut where
  | panicked (events : List LEvent)
  | ok (events : List LEvent) (ph : Option Unit)
  deriving DecidableEq

/-- The listener loop's handling of one accepted connection (server.rs lines
489-569): accept4, take and unwrap the server's pre-handler (lines 496-498,
panicking when the slot is None), spawn the client_handler engine thread
(line 504), then insert the Connection record into the table (line 561). -/
def acceptPath (fd : Nat) (ph : Option Unit) : AcceptOut :=
  match ph with
  | none => .panicked [.accepted fd]
  | some _ => .ok [.accepted fd, .spawnedEngine fd, .insertedConnection fd] none

/-- HashMap::insert keyed by fd (the connection table, server.rs line 561):
replace any existing entry for the key. -/
def tableInsert (table : List (Nat × Nat)) (fd : Nat) (c : Nat) :
    List (Nat × Nat) :=
  (fd, c) :: table.filter fun p => p.1 != fd

/-- The reaper's handling of one fd received on its channel (server.rs lines
440-453): HashMap::remove the entry from the table (its engine handle is then
joined, see reaperJoins). -/
def reaperStep (table : List (Nat × Nat)) (fd : Nat) : List (Nat × Nat) :=
  table.filter fun p => p.1 != fd

/-- Whether the reaper joins an engine handle for fd (server.rs lines
447-450): only when the table held an entry for it. -/
def reaperJoins (table : List (Nat × Nat)) (fd : Nat) : Bool :=
  (table.lookup fd).isSome

/-- The per-connection state Connection::close affects. -/
structure Connection where
  quit : Bool
  shutdownRead : Bool
  deriving DecidableEq

/-- Connection::close (server.rs lines 62-68): store true into the
connection's quit flag and shutdown(fd, Read), ignoring its error. -/
def Connection.close (_c : Connection) : Connection :=
  { quit := true, shutdownRead := true }

/-- What Server::shutdown (server.rs lines 586-634) has done when it returns,
as a function of the connection table it locked. -/
structure ShutdownOut where
  quitSet : Bool
  pipeWriteClosed : Bool
  closedFds : List Nat
  lockReleasedBeforeJoin : Bool
  joinedListener : Bool
  joinedReaper : Bool
  finalTable : List (Nat × Nat)
  deriving DecidableEq

/-- Server::shutdown (server.rs lines 586-634): lock the table, set the server
quit flag, close the self-pipe write end, call close() on every connection in
the table, release the table lock before the join site — but the
handler.join() is commented out (lines 626-629), so neither the listener
thread nor, transitively, the reaper is joined, and shutdown itself removes no
table entry. -/
def shutdown (table : List (Nat × Nat)) : ShutdownOut :=
  { quitSet := true
    pipeWriteClosed := true
    closedFds := table.map fun p => p.1
    lockReleasedBeforeJoin := true
    joinedListener := false
    joinedReaper := false
    finalTable := table }

/-- Arc::get_mut (Rust std, modelled from its contract): a mutable borrow is
available only to a sole owner (strong and weak count one). -/
def arcGetMut (strongCount : Nat) : Option Unit :=
  if strongCount = 1 then some () else none

/-- Outcome of Server::register_service. -/
inductive RegisterOut where
  | ok (router : List (String × Nat))
  | panicked
  deriving DecidableEq

/-- HashMap::extend of the new methods into the router (server.rs line 366). -/
def routerExtend (router newMethods : List (String × Nat)) :
    List (String × Nat) :=
  newMethods.foldl (fun acc p => (p.1, p.2) :: acc.filter fun q => q.1 != p.1) router

/-- Server::register_service (server.rs lines 359-370):
Arc::get_mut(&mut self.methods).unwrap() — panicking unless the Server is the
sole owner of the router — then extend the router with the new entries. -/
def register_service (strongCount : Nat) (router newMethods : List (String × Nat)) :
    RegisterOut :=
  match arcGetMut strongCount with
  | some _ => .ok (routerExtend router newMethods)
  | none => .panicked

/-- Strong count of the methods Arc as register_service sees it: 1 on a fresh
Server and 2 once start() has cloned the Arc into the live listener thread
(server.rs line 415). -/
def methodsStrongCount (startedOk : Bool) : Nat :=
  if startedOk then 2 else 1

/-- A concrete worker configuration used to evaluate the worker loop on the
quit-after-read race. -/
def cfgQuitRace : WCfg :=
  { min := 1, max := 5, methods := [], ph := none,
    decode := fun _ => .error "bad", encode := fun _ => [],
    handlerRes := fun _ _ => none, sendOk := true }

/-- A concrete worker configuration with one registered route, used to
evaluate the routing-miss scenario. -/
def cfgEcho : WCfg :=
  { min := 1, max := 5, methods := [("/Echo/Ping", 0)], ph := none,
    decode := fun b =>
      if b = [1] then .ok { service := "Echo", method := "Pong", payload := [] }
      else .ok { service := "Echo", method := "Ping", payload := [] },
    encode := fun _ => [2],
    handlerRes := fun _ _ => none, sendOk := true }

/-! Helper lemmas shared by the claim theorems. -/

theorem emittedFrames_append (xs ys : List WEvent) :
    emittedFrames (xs ++ ys) = emittedFrames xs ++ emittedFrames ys :=
  List.filterMap_append ..

theorem handlerCalls_append (xs ys : List WEvent) :
    handlerCalls (xs ++ ys) = handlerCalls xs + handlerCalls ys :=
  List.countP_append ..

theorem emittedFrames_ite (p : Prop) [Decidable p] (xs ys : List WEvent) :
    emittedFrames (if p then xs else ys) =
      if p then emittedFrames xs else emittedFrames ys := by
  split <;> rfl

theorem handlerCalls_ite (p : Prop) [Decidable p] (xs ys : List WEvent) :
    handlerCalls (if p then xs else ys) =
      if p then handlerCalls xs else handlerCalls ys := by
  split <;> rfl

/-! Theorems settling the claims. -/

/-- Claim C1 (code evaluated at the failing input): spawning the default
number of workers for a fresh connection panics inside
start_method_handler_threads — with no pre-handler configured it panics
before spawning any worker, and with one configured it panics after spawning
a single worker, because the take at server.rs line 238 leaves None behind —
so the engine never spawns `default` workers nor reaches its control loop
without panicking. -/
theorem C1_spawn_panics :
    start_method_handler_threads DEFAULT_WAIT_THREAD_COUNT_DEFAULT false none =
      .panicked 0 ∧
    start_method_handler_threads DEFAULT_WAIT_THREAD_COUNT_DEFAULT false (some ()) =
      .panicked 1 ∧
    DEFAULT_WAIT_THREAD_COUNT_DEFAULT = 3 :=
  ⟨rfl, rfl, rfl⟩

/-- Claim C2 (code evaluated at the failing input): shutdown on a server with
one live connection sets quit, closes the self-pipe write end, calls close()
on every connection (which sets that connection's quit and issues
shutdown(fd, Read)), and releases the table lock before the join site — but
the handler.join() is commented out (server.rs lines 626-629), so neither the
listener nor the reaper is joined and the connection table still holds its
entry when shutdown returns. -/
theorem C2_shutdown_no_join :
    shutdown [(5, 1)] =
      { quitSet := true, pipeWriteClosed := true, closedFds := [5],
        lockReleasedBeforeJoin := true, joinedListener := false,
        joinedReaper := false, finalTable := [(5, 1)] } ∧
    Connection.close { quit := false, shutdownRead := false } =
      { quit := true, shutdownRead := true } :=
  ⟨rfl, rfl⟩

/-- Claim C10: register_service mutates the router through
Arc::get_mut(..).unwrap(); once start() has cloned the methods Arc into the
live listener thread the strong count is 2 and the unwrap panics, while
before start() the count is 1 and registration extends the router. -/
theorem C10_register_after_start (router newMethods : List (String × Nat)) :
    register_service (methodsStrongCount true) router newMethods = .panicked ∧
    register_service (methodsStrongCount false) router newMethods =
      .ok (routerExtend router newMethods) :=
  ⟨rfl, rfl⟩

/-- Claim C6: every frame handed to the response writer in reply to a request
with header h carries h's stream_id, type RESPONSE (2), flags 0, and a length
equal to the byte length of the encoded Response payload that follows (the
length is a u32, so the encoded payload is assumed to fit one). -/
theorem C6_response_header (encode : Response → List Nat) (h : MessageHeader)
    (res : Response) (hlen : (encode res).length < 4294967296) :
    (response_to_channel encode h.stream_id res).1.stream_id = h.stream_id ∧
    (response_to_channel encode h.stream_id res).1.type_ = MESSAGE_TYPE_RESPONSE ∧
    (response_to_channel encode h.stream_id res).1.flags = 0 ∧
    (response_to_channel encode h.stream_id res).1.length =
      (response_to_channel encode h.stream_id res).2.length := by
  refine ⟨rfl, rfl, rfl, ?_⟩
  simp only [response_to_channel]
  exact Nat.mod_eq_of_lt hlen

/-- Claim C6 witness: the header built for a concrete response. -/
theorem C6_witness :
    (response_to_channel (fun r => r.payload) (7 : Nat)
        { status := get_status .OK "", payload := [1, 2, 3] }).1.stream_id = 7 ∧
    (response_to_channel (fun r => r.payload) (7 : Nat)
        { status := get_status .OK "", payload := [1, 2, 3] }).1.type_ =
      MESSAGE_TYPE_RESPONSE ∧
    (response_to_channel (fun r => r.payload) (7 : Nat)
        { status := get_status .OK "", payload := [1, 2, 3] }).1.flags = 0 ∧
    (response_to_channel (fun r => r.payload) (7 : Nat)
        { status := get_status .OK "", payload := [1, 2, 3] }).1.length =
      (response_to_channel (fun r => r.payload) (7 : Nat)
        { status := get_status .OK "", payload := [1, 2, 3] }).2.length :=
  C6_response_header (fun r => r.payload)
    { length := 0, stream_id := 7, type_ := 1, flags := 0 }
    { status := get_status .OK "", payload := [1, 2, 3] } (by decide)

/-- Claim C8: start() returns Err(Error::Others ..) unless
thread_count_min < thread_count_default < thread_count_max, returns
Err(Error::Others ..) when no listener has been bound or added, and otherwise
(with the fcntl call succeeding) sets the first listener non-blocking, spawns
the listener thread and returns Ok immediately (StartOut.started). -/
theorem C8_start (d m M fd : Nat) (ls : List Nat) :
    (¬ (m < d ∧ d < M) → (start d m M ls true).isErrOthers = true) ∧
    (m < d → d < M → ls = [] →
      start d m M ls true = .err (.Others "ttrpc-rust not bind")) ∧
    (m < d → d < M → ls.head? = some fd → start d m M ls true = .started fd) := by
  refine ⟨?_, ?_, ?_⟩
  · intro h
    rcases Nat.lt_or_ge d M with hdM | hMd
    · have hdm : d ≤ m := by omega
      have h1 : ¬ (M ≤ d) := by omega
      simp only [start]
      rw [if_neg h1, if_pos hdm]
      rfl
    · simp only [start]
      rw [if_pos hMd]
      rfl
  · intro h1 h2 h3
    subst h3
    simp only [start]
    rw [if_neg (by omega), if_neg (by omega)]
  · intro h1 h2 h3
    cases ls with
    | nil => simp at h3
    | cons x xs =>
      have hx : x = fd := by simpa using h3
      subst hx
      simp only [start]
      rw [if_neg (by omega), if_neg (by omega)]
      rfl

/-- Claim C8 witness: concrete sizing and listener lists. -/
theorem C8_witness :
    (start 5 1 5 [9] true).isErrOthers = true ∧
    start 3 1 5 [] true = .err (.Others "ttrpc-rust not bind") ∧
    start 3 1 5 [9] true = .started 9 := by
  refine ⟨?_, ?_, ?_⟩
  · exact (C8_start 5 1 5 9 [9]).1 (by omega)
  · exact (C8_start 3 1 5 9 []).2.1 (by omega) (by omega) rfl
  · exact (C8_start 3 1 5 9 [9]).2.2 (by omega) (by omega) rfl

theorem lookup_filter_self (table : List (Nat × Nat)) (fd : Nat) :
    (table.filter fun p => p.1 != fd).lookup fd = none := by
  induction table with
  | nil => rfl
  | cons hd tl ih =>
    obtain ⟨a, b⟩ := hd
    by_cases h : a = fd
    · simp only [List.filter_cons]
      rw [if_neg (by simp [h])]
      exact ih
    · simp only [List.filter_cons]
      rw [if_pos (by simp [h])]
      have hb : (fd == a) = false := by simp [Ne.symm h]
      simp only [List.lookup, hb]
      exact ih

theorem lookup_filter_other (table : List (Nat × Nat)) (fd k : Nat) (h : k ≠ fd) :
    (table.filter fun p => p.1 != fd).lookup k = table.lookup k := by
  induction table with
  | nil => rfl
  | cons hd tl ih =>
    obtain ⟨a, b⟩ := hd
    by_cases hhd : a = fd
    · simp only [List.filter_cons]
      rw [if_neg (by simp [hhd])]
      rw [ih]
      have hb : (k == a) = false := by
        subst hhd
        simp [h]
      simp only [List.lookup, hb]
    · simp only [List.filter_cons]
      rw [if_pos (by simp [hhd])]
      by_cases hk : k = a
      · subst hk
        simp only [List.lookup, beq_self_eq_true]
      · have hb : (k == a) = false := by simp [hk]
        simp only [List.lookup, hb]
        exact ih

/-- Claim C3 counterexample: on the accept path the engine thread is spawned
(server.rs line 504) before the Connection record is inserted into the table
(line 561), so the insertion does not happen before the engine starts
running. -/
theorem C3_counterexample :
    acceptPath 5 (some ()) =
      .ok [.accepted 5, .spawnedEngine 5, .insertedConnection 5] none ∧
    [LEvent.accepted 5, .spawnedEngine 5, .insertedConnection 5].indexOf
        (.spawnedEngine 5) <
      [LEvent.accepted 5, .spawnedEngine 5, .insertedConnection 5].indexOf
        (.insertedConnection 5) :=
  ⟨rfl, by decide⟩

/-- Claim C3 (amended): for every accepted connection (with the pre-handler
slot still occupied, so the accept path's unwrap does not panic), the engine
is spawned first and the Connection record inserted immediately afterwards by
the listener before the next accept; insertion keyed by fd keeps exactly one
record per fd; records are removed only by the reaper, which removes exactly
the signalled fd, leaves the other entries unchanged, and joins the removed
engine. -/
theorem C3_amended (fd c : Nat) (table : List (Nat × Nat)) :
    acceptPath fd (some ()) =
      .ok [.accepted fd, .spawnedEngine fd, .insertedConnection fd] none ∧
    ((tableInsert table fd c).lookup fd = some c ∧
      (tableInsert table fd c).countP (fun p => p.1 == fd) = 1) ∧
    ((reaperStep table fd).lookup fd = none ∧
      (∀ k, k ≠ fd → (reaperStep table fd).lookup k = table.lookup k) ∧
      reaperJoins table fd = (table.lookup fd).isSome) := by
  refine ⟨rfl, ⟨?_, ?_⟩, ?_, ?_, rfl⟩
  · simp [tableInsert, List.lookup]
  · simp only [tableInsert, List.countP_cons]
    rw [List.countP_filter]
    have hz : (table.countP fun a => (a.1 == fd) && (a.1 != fd)) = 0 := by
      have : (fun (a : Nat × Nat) => (a.1 == fd) && (a.1 != fd)) =
          fun _ => false := by
        funext a
        simp [bne]
      rw [this]
      simp
    rw [hz]
    simp
  · exact lookup_filter_self table fd
  · intro k hk
    exact lookup_filter_other table fd k hk

/-- Claim C3 witness: the accept path, an insertion and a reap on a concrete
table. -/
theorem C3_witness :
    acceptPath 5 (some ()) =
      .ok [.accepted 5, .spawnedEngine 5, .insertedConnection 5] none ∧
    (tableInsert [(3, 2)] 5 1).lookup 5 = some 1 ∧
    (tableInsert [(3, 2)] 5 1).countP (fun p => p.1 == 5) = 1 ∧
    (reaperStep [(5, 1), (3, 2)] 5).lookup 5 = none ∧
    (reaperStep [(5, 1), (3, 2)] 5).lookup 3 = [(5, 1), (3, 2)].lookup 3 ∧
    reaperJoins [(5, 1), (3, 2)] 5 = ([(5, 1), (3, 2)].lookup 5).isSome := by
  have h1 := C3_amended 5 1 [(3, 2)]
  have h2 := C3_amended 5 1 [(5, 1), (3, 2)]
  exact ⟨h1.1, h1.2.1.1, h1.2.1.2, h2.2.2.1, h2.2.2.2.1 3 (by decide), h2.2.2.2.2⟩

/-- Claim C4 counterexample: bind on a well-formed vsock host whose port is
not a decimal u32 panics through the expect at server.rs line 332 instead of
returning Err(Error::Others(..)). -/
theorem C4_counterexample :
    (bind [] "vsock://1:x").1 = .panicked "the vsock port is not an number" ∧
    ((bind [] "vsock://1:x").1).isErrOthers = false :=
  ⟨rfl, rfl⟩

/-- Claim C4 (amended): a host without exactly one "://" separator, an
unsupported scheme, and a vsock address with other than exactly one colon all
make bind return Err(Error::Others(..)) without panicking, and bind on a
Server that already holds a listener returns Err(Error::Others(..)) leaving
the listener list unchanged; but a vsock address of the form cid:port whose
port is not a decimal u32 makes bind panic (the expect at server.rs line 332)
rather than return an error. -/
theorem C4_amended (host : String) (a b cid port : List Char)
    (ls : List SockAddr) :
    (ls.isEmpty = false →
      bind ls host = (.err (.Others "ttrpc-rust just support 1 host now"), ls)) ∧
    ((splitOnChars ("://".toList) (trimChars host.toList)).length ≠ 2 →
      (bind [] host).1.isErrOthers = true ∧ (bind [] host).2 = []) ∧
    (splitOnChars ("://".toList) (trimChars host.toList) = [a, b] →
      a.map Char.toLower ≠ "unix".toList → a.map Char.toLower ≠ "vsock".toList →
      (bind [] host).1.isErrOthers = true ∧ (bind [] host).2 = []) ∧
    (splitOnChars ("://".toList) (trimChars host.toList) = [a, b] →
      a.map Char.toLower = "vsock".toList →
      (splitOnChars [':'] b).length ≠ 2 →
      (bind [] host).1.isErrOthers = true ∧ (bind [] host).2 = []) ∧
    (splitOnChars ("://".toList) (trimChars host.toList) = [a, b] →
      a.map Char.toLower = "vsock".toList →
      splitOnChars [':'] b = [cid, port] →
      parseU32 port = none →
      (bind [] host).1 = .panicked "the vsock port is not an number") := by
  refine ⟨?_, ?_, ?_, ?_, ?_⟩
  · intro h
    simp [bind, h]
  · intro h
    rcases hv : splitOnChars ("://".toList) (trimChars host.toList) with
      _ | ⟨x, _ | ⟨y, _ | ⟨z, rest⟩⟩⟩
    · have hstep : bind [] host =
          (.err (.Others ("Host " ++ host ++ " is not right")), []) := by
        simp only [bind]
        rw [hv]
        rfl
      rw [hstep]
      exact ⟨rfl, rfl⟩
    · have hstep : bind [] host =
          (.err (.Others ("Host " ++ host ++ " is not right")), []) := by
        simp only [bind]
        rw [hv]
        rfl
      rw [hstep]
      exact ⟨rfl, rfl⟩
    · rw [hv] at h
      simp at h
    · have hstep : bind [] host =
          (.err (.Others ("Host " ++ host ++ " is not right")), []) := by
        simp only [bind]
        rw [hv]
        rfl
      rw [hstep]
      exact ⟨rfl, rfl⟩
  · intro hv hnu hnv
    have hstep : bind [] host =
        (.err (.Others ("Scheme " ++ (a.map Char.toLower).asString ++
          " is not supported")), []) := by
      simp only [bind]
      rw [hv]
      simp only [bindParsed]
      rw [if_neg hnu, if_neg hnv]
      rfl
    rw [hstep]
    exact ⟨rfl, rfl⟩
  · intro hv hveq hlen
    have hnu : List.map Char.toLower a ≠ "unix".toList := by
      rw [hveq]
      decide
    rcases hb : splitOnChars [':'] b with _ | ⟨x, _ | ⟨y, _ | ⟨z, rest⟩⟩⟩
    · have hstep : bind [] host =
          (.err (.Others ("Host " ++ host ++ " is not right for vsock")), []) := by
        simp only [bind]
        rw [hv]
        simp only [bindParsed]
        rw [if_neg hnu, if_pos hveq, hb]
        rfl
      rw [hstep]
      exact ⟨rfl, rfl⟩
    · have hstep : bind [] host =
          (.err (.Others ("Host " ++ host ++ " is not right for vsock")), []) := by
        simp only [bind]
        rw [hv]
        simp only [bindParsed]
        rw [if_neg hnu, if_pos hveq, hb]
        rfl
      rw [hstep]
      exact ⟨rfl, rfl⟩
    · rw [hb] at hlen
      simp at hlen
    · have hstep : bind [] host =
          (.err (.Others ("Host " ++ host ++ " is not right for vsock")), []) := by
        simp only [bind]
        rw [hv]
        simp only [bindParsed]
        rw [if_neg hnu, if_pos hveq, hb]
        rfl
      rw [hstep]
      exact ⟨rfl, rfl⟩
  · intro hv hveq hb hp
    have hnu : List.map Char.toLower a ≠ "unix".toList := by
      rw [hveq]
      decide
    have hstep : bind [] host =
        (.panicked "the vsock port is not an number", []) := by
      simp only [bind]
      rw [hv]
      simp only [bindParsed]
      rw [if_neg hnu, if_pos hveq, hb]
      simp only [hp]
      rfl
    rw [hstep]

/-- Claim C4 witness: the amended behaviours at concrete hosts. -/
theorem C4_witness :
    bind [SockAddr.Vsock 4294967295 9] "unix://a" =
      (.err (.Others "ttrpc-rust just support 1 host now"),
        [SockAddr.Vsock 4294967295 9]) ∧
    ((bind [] "abc").1.isErrOthers = true ∧ (bind [] "abc").2 = []) ∧
    ((bind [] "tcp://x").1.isErrOthers = true ∧ (bind [] "tcp://x").2 = []) ∧
    ((bind [] "vsock://5").1.isErrOthers = true ∧ (bind [] "vsock://5").2 = []) ∧
    (bind [] "vsock://1:x").1 = .panicked "the vsock port is not an number" := by
  refine ⟨?_, ?_, ?_, ?_, ?_⟩
  · exact (C4_amended "unix://a" [] [] [] [] [SockAddr.Vsock 4294967295 9]).1 rfl
  · exact (C4_amended "abc" [] [] [] [] []).2.1 (by decide)
  · exact (C4_amended "tcp://x" ("tcp".toList) ("x".toList) [] [] []).2.2.1
      (by decide) (by decide) (by decide)
  · exact (C4_amended "vsock://5" ("vsock".toList) ("5".toList) [] [] []).2.2.2.1
      (by decide) (by decide) (by decide)
  · exact (C4_amended "vsock://1:x" ("vsock".toList) ("1:x".toList) ("1".toList)
      ("x".toList) []).2.2.2.2 (by decide) (by decide) (by decide) (by decide)

/-- Claim C9 counterexample: bind [] "unix://a" binds the abstract address
whose kernel bytes are [0, 97, 0] — a leading NUL, the name byte, and a
trailing NUL coming from the "\x00" appended at server.rs line 316 — and not
exactly a leading NUL followed by the name bytes. -/
theorem C9_counterexample :
    (bind [] "unix://a").1 = .bound (.Unix [0, 97, 0]) ∧
    (([0, 97, 0] : List Nat) == [0, 97]) = false :=
  ⟨rfl, rfl⟩

/-- Claim C9 (amended): for every successful bind of a unix host, the kernel
address bytes are a leading NUL, then the UTF-8 bytes of the name, then one
trailing NUL (the "\x00" the code appends before nix's new_abstract prepends
the leading NUL). -/
theorem C9_amended (host name : String)
    (hsplit : splitOnChars ("://".toList) (trimChars host.toList) =
      ["unix".toList, name.toList])
    (hlen : (utf8Bytes name.toList).length + 2 ≤ 108) :
    (bind [] host).1 = .bound (.Unix (0 :: (utf8Bytes name.toList ++ [0]))) := by
  have hu : ("unix".toList.map Char.toLower) = "unix".toList := by decide
  have hl : (utf8Bytes name.toList ++ [0]).length + 1 ≤ 108 := by
    simp only [List.length_append, List.length_cons, List.length_nil]
    omega
  have hstep : bind [] host =
      (.bound (.Unix (0 :: (utf8Bytes name.toList ++ [0]))),
        [.Unix (0 :: (utf8Bytes name.toList ++ [0]))]) := by
    simp only [bind]
    rw [hsplit]
    simp only [bindParsed]
    rw [if_pos hu]
    simp only [new_abstract]
    rw [if_pos hl]
    rfl
  rw [hstep]

/-- Claim C9 witness: the concrete host "unix://a". -/
theorem C9_witness :
    (bind [] "unix://a").1 = .bound (.Unix [0, 97, 0]) :=
  C9_amended "unix://a" "a" (by decide) (by decide)

/-- Claim C5 counterexample: a worker iteration that observes quit after the
read (server.rs line 117) breaks without decrementing wtc — starting from
wtc = 0 it increments to 1, reads, signals and exits with wtc still 1 and no
decrement event — so the decrement does not follow every read. -/
theorem C5_counterexample :
    workerStep cfgQuitRace
        { q0 := false, q1 := false, q2 := true,
          read := .ok { length := 0, stream_id := 0, type_ := 1, flags := 0 } [] } 0 =
      { events := [.incr 1, .readFrame, .signal], wtc := 1, exit := .brk } ∧
    ([WEvent.incr 1, .readFrame, .signal].contains (WEvent.decr 0)) = false :=
  ⟨rfl, rfl⟩

/-- Claim C5 (amended): an entered worker iteration first increments wtc and,
when the new value exceeds max, decrements it back and terminates without
reading; when no quit is observed during the iteration, after the read and
lock release it decrements wtc and signals the control channel when the new
value is below min, before handling the frame; when quit is observed after
the read the worker signals and terminates without decrementing; and a
control-loop wake with wtc < min invokes the spawner for default − wtc
additional workers (the spawner itself panics on the taken pre-handler after
at most one spawn, as recorded for claim C1). -/
theorem C5_amended (cfg : WCfg) (obs : WorkerObs) (wtc tcDefault tcMin : Nat)
    (quit : Bool) (ph : Option Unit) :
    (obs.q0 = false → cfg.max < wtc + 1 →
      workerStep cfg obs wtc =
        { events := [.incr (wtc + 1), .decr wtc], wtc := wtc, exit := .brk }) ∧
    (obs.q0 = false → obs.q1 = false → obs.q2 = false → wtc + 1 ≤ cfg.max →
      (workerStep cfg obs wtc).events =
        ([WEvent.incr (wtc + 1), .readFrame, .decr wtc] ++
          (if wtc < cfg.min then [WEvent.signal] else [])) ++
          (handleFrame cfg obs.read).1) ∧
    (obs.q0 = false → obs.q1 = false → obs.q2 = true → wtc + 1 ≤ cfg.max →
      workerStep cfg obs wtc =
        { events := [.incr (wtc + 1), .readFrame, .signal], wtc := wtc + 1,
          exit := .brk }) ∧
    (wtc < tcMin →
      check_method_handler_threads tcDefault tcMin quit ph wtc =
        start_method_handler_threads (tcDefault - wtc) quit ph) := by
  obtain ⟨q0, q1, q2, rd⟩ := obs
  refine ⟨?_, ?_, ?_, ?_⟩
  · intro h0 hmax
    simp only at h0
    subst h0
    simp [workerStep, hmax]
  · intro h0 h1 h2 hle
    simp only at h0 h1 h2
    subst h0
    subst h1
    subst h2
    have hnm : ¬ (cfg.max < wtc + 1) := by omega
    simp [workerStep, hnm]
  · intro h0 h1 h2 hle
    simp only at h0 h1 h2
    subst h0
    subst h1
    subst h2
    have hnm : ¬ (cfg.max < wtc + 1) := by omega
    simp [workerStep, hnm]
  · intro h
    simp [check_method_handler_threads, h]

/-- Claim C5 witness: the amended behaviours at concrete iterations. -/
theorem C5_witness :
    workerStep cfgQuitRace
        { q0 := false, q1 := false, q2 := false, read := .err (.Others "skip") } 5 =
      { events := [.incr 6, .decr 5], wtc := 5, exit := .brk } ∧
    (workerStep cfgQuitRace
        { q0 := false, q1 := false, q2 := false, read := .err (.Others "skip") } 0).events =
      ([WEvent.incr 1, .readFrame, .decr 0] ++
        (if (0 : Nat) < cfgQuitRace.min then [WEvent.signal] else [])) ++
        (handleFrame cfgQuitRace (.err (.Others "skip"))).1 ∧
    workerStep cfgQuitRace
        { q0 := false, q1 := false, q2 := true,
          read := .err (.Others "skip") } 0 =
      { events := [.incr 1, .readFrame, .signal], wtc := 1, exit := .brk } ∧
    check_method_handler_threads 3 1 false none 0 =
      start_method_handler_threads 3 false none := by
  have h := C5_amended cfgQuitRace
    { q0 := false, q1 := false, q2 := false, read := .err (.Others "skip") } 5 3 1
    false none
  have h0 := C5_amended cfgQuitRace
    { q0 := false, q1 := false, q2 := false, read := .err (.Others "skip") } 0 3 1
    false none
  have h2 := C5_amended cfgQuitRace
    { q0 := false, q1 := false, q2 := true, read := .err (.Others "skip") } 0 3 1
    false none
  exact ⟨h.1 rfl (by decide), h0.2.1 rfl rfl rfl (by decide),
    h2.2.2.1 rfl rfl rfl (by decide), h2.2.2.2 (by decide)⟩

/-- Claim C7: a REQUEST whose path has no router entry is answered with a
Response of status INVALID_ARGUMENT and message "<path> does not exist"
carrying the request's stream_id, the worker continues its loop, and the
connection stays open: a subsequent valid request is dispatched to its
handler. -/
theorem C7_routing_miss (cfg : WCfg) (mh1 mh2 : MessageHeader) (b1 b2 : List Nat)
    (req1 req2 : Request) (hid wtc : Nat)
    (hsend : cfg.sendOk = true)
    (hmax : wtc + 1 ≤ cfg.max)
    (ht1 : mh1.type_ = MESSAGE_TYPE_REQUEST)
    (ht2 : mh2.type_ = MESSAGE_TYPE_REQUEST)
    (hd1 : cfg.decode b1 = .ok req1)
    (hd2 : cfg.decode b2 = .ok req2)
    (hm1 : cfg.methods.lookup ("/" ++ req1.service ++ "/" ++ req1.method) = none)
    (hm2 : cfg.methods.lookup ("/" ++ req2.service ++ "/" ++ req2.method) = some hid)
    (hh2 : cfg.handlerRes hid req2 = none) :
    emittedFrames (workerRun cfg
        [{ q0 := false, q1 := false, q2 := false, read := .ok mh1 b1 },
         { q0 := false, q1 := false, q2 := false, read := .ok mh2 b2 }] wtc).events =
      [response_to_channel cfg.encode mh1.stream_id
        { status := get_status .INVALID_ARGUMENT
            ("/" ++ req1.service ++ "/" ++ req1.method ++ " does not exist"),
          payload := [] }] ∧
    (response_to_channel cfg.encode mh1.stream_id
        { status := get_status .INVALID_ARGUMENT
            ("/" ++ req1.service ++ "/" ++ req1.method ++ " does not exist"),
          payload := [] }).1.stream_id = mh1.stream_id ∧
    handlerCalls (workerRun cfg
        [{ q0 := false, q1 := false, q2 := false, read := .ok mh1 b1 },
         { q0 := false, q1 := false, q2 := false, read := .ok mh2 b2 }] wtc).events = 1 ∧
    (workerRun cfg
        [{ q0 := false, q1 := false, q2 := false, read := .ok mh1 b1 },
         { q0 := false, q1 := false, q2 := false, read := .ok mh2 b2 }] wtc).exit =
      .cont := by
  have hnm : ¬ (cfg.max < wtc + 1) := by omega
  have hf1 : handleFrame cfg (.ok mh1 b1) =
      ([.emit (response_to_channel cfg.encode mh1.stream_id
          { status := get_status .INVALID_ARGUMENT
              ("/" ++ req1.service ++ "/" ++ req1.method ++ " does not exist"),
            payload := [] }).1
        (response_to_channel cfg.encode mh1.stream_id
          { status := get_status .INVALID_ARGUMENT
              ("/" ++ req1.service ++ "/" ++ req1.method ++ " does not exist"),
            payload := [] }).2], .cont) := by
    simp [handleFrame, ht1, hd1, hm1, hsend]
  have hf2 : handleFrame cfg (.ok mh2 b2) =
      ((if cfg.ph.isSome then [WEvent.preCall] else []) ++ [.handlerCall hid],
        .cont) := by
    simp [handleFrame, ht2, hd2, hm2, hh2]
  have hs1 : workerStep cfg
      { q0 := false, q1 := false, q2 := false, read := .ok mh1 b1 } wtc =
      { events := ([WEvent.incr (wtc + 1), .readFrame, .decr wtc] ++
          (if wtc < cfg.min then [WEvent.signal] else [])) ++
          (handleFrame cfg (.ok mh1 b1)).1,
        wtc := wtc, exit := (handleFrame cfg (.ok mh1 b1)).2 } := by
    simp [workerStep, hnm]
  have hs2 : workerStep cfg
      { q0 := false, q1 := false, q2 := false, read := .ok mh2 b2 } wtc =
      { events := ([WEvent.incr (wtc + 1), .readFrame, .decr wtc] ++
          (if wtc < cfg.min then [WEvent.signal] else [])) ++
          (handleFrame cfg (.ok mh2 b2)).1,
        wtc := wtc, exit := (handleFrame cfg (.ok mh2 b2)).2 } := by
    simp [workerStep, hnm]
  refine ⟨?_, rfl, ?_, ?_⟩
  · simp only [workerRun, hs1, hf1, hs2, hf2, emittedFrames_append,
      emittedFrames_ite]
    simp [emittedFrames]
  · simp only [workerRun, hs1, hf1, hs2, hf2, handlerCalls_append,
      handlerCalls_ite]
    simp [handlerCalls]
  · simp only [workerRun, hs1, hf1, hs2, hf2]

/-- Claim C7 witness: a concrete missed route followed by a served request. -/
theorem C7_witness :
    emittedFrames (workerRun cfgEcho
        [{ q0 := false, q1 := false, q2 := false,
           read := .ok { length := 0, stream_id := 7, type_ := 1, flags := 0 } [1] },
         { q0 := false, q1 := false, q2 := false,
           read := .ok { length := 0, stream_id := 8, type_ := 1, flags := 0 } [2] }] 0).events =
      [({ length := 1, stream_id := 7, type_ := MESSAGE_TYPE_RESPONSE, flags := 0 }, [2])] ∧
    handlerCalls (workerRun cfgEcho
        [{ q0 := false, q1 := false, q2 := false,
           read := .ok { length := 0, stream_id := 7, type_ := 1, flags := 0 } [1] },
         { q0 := false, q1 := false, q2 := false,
           read := .ok { length := 0, stream_id := 8, type_ := 1, flags := 0 } [2] }] 0).events = 1 ∧
    (workerRun cfgEcho
        [{ q0 := false, q1 := false, q2 := false,
           read := .ok { length := 0, stream_id := 7, type_ := 1, flags := 0 } [1] },
         { q0 := false, q1 := false, q2 := false,
           read := .ok { length := 0, stream_id := 8, type_ := 1, flags := 0 } [2] }] 0).exit =
      .cont := by
  have h := C7_routing_miss cfgEcho
    { length := 0, stream_id := 7, type_ := 1, flags := 0 }
    { length := 0, stream_id := 8, type_ := 1, flags := 0 }
    [1] [2]
    { service := "Echo", method := "Pong", payload := [] }
    { service := "Echo", method := "Ping", payload := [] }
    0 0 rfl (by decide) rfl rfl rfl rfl (by decide) (by decide) rfl
  exact ⟨h.1, h.2.2.1, h.2.2.2⟩

end Ttrpc
